import Mathlib

/-!
Verification of the two dashboard computation cores of this repository:
the EVM (Earned Value Management) metrics engine with its S-curve generator
(`src/eva.py`), and the hospital department variance-comparison engine
(`src/hospital_app.py`).

Modelling conventions:
* Python floats are modelled as exact rationals (`ℚ`); every formula in the
  source is closed-form arithmetic, so the rational model is the ideal of the
  float code.
* Calendar dates are modelled as integer day numbers; Python's
  `(d2 - d1).days` is exactly integer subtraction in that model.
* Python dict results with a fixed key set are modelled as Lean structures,
  together with an explicit association list giving the dict's insertion
  order where the number of entries matters.
-/

set_option maxRecDepth 4000

/-- Result record of `calculate_evm_metrics` (src/eva.py lines 12-40): one
field per key of the returned Python dict. -/
structure EVMMetrics where
  SV : ℚ
  CV : ℚ
  SPI : ℚ
  CPI : ℚ
  EAC_Typical : ℚ
  EAC_Atypical : ℚ
  ETC_Typical : ℚ
  ETC_Atypical : ℚ
  VAC : ℚ
  TCPI_BAC : ℚ
  TCPI_EAC : ℚ
deriving DecidableEq, Repr

/-- Shallow embedding of `calculate_evm_metrics(bac, pv, ev, ac)`
(src/eva.py lines 12-40).  Each `let` mirrors one assignment into the
`metrics` dict, in source order; `x / y if y != 0 else 0` becomes
`if y ≠ 0 then x / y else 0`. -/
def calculate_evm_metrics (bac pv ev ac : ℚ) : EVMMetrics :=
  let sv := ev - pv
  let cv := ev - ac
  let spi := if pv ≠ 0 then ev / pv else 0
  let cpi := if ac ≠ 0 then ev / ac else 0
  let eacTypical := if cpi ≠ 0 then bac / cpi else 0
  let eacAtypical := ac + (bac - ev)
  let etcTypical := eacTypical - ac
  let etcAtypical := eacAtypical - ac
  let vac := bac - eacTypical
  let tcpiBac := if bac - ac ≠ 0 then (bac - ev) / (bac - ac) else 0
  let tcpiEac := if eacTypical - ac ≠ 0 then (bac - ev) / (eacTypical - ac) else 0
  { SV := sv, CV := cv, SPI := spi, CPI := cpi,
    EAC_Typical := eacTypical, EAC_Atypical := eacAtypical,
    ETC_Typical := etcTypical, ETC_Atypical := etcAtypical,
    VAC := vac, TCPI_BAC := tcpiBac, TCPI_EAC := tcpiEac }

/-- The key/value entries of the metrics dict built by
`calculate_evm_metrics`, in the source's insertion order
(src/eva.py lines 17-38). -/
def metricEntries (m : EVMMetrics) : List (String × ℚ) :=
  [("SV", m.SV), ("CV", m.CV), ("SPI", m.SPI), ("CPI", m.CPI),
   ("EAC_Typical", m.EAC_Typical), ("EAC_Atypical", m.EAC_Atypical),
   ("ETC_Typical", m.ETC_Typical), ("ETC_Atypical", m.ETC_Atypical),
   ("VAC", m.VAC), ("TCPI_BAC", m.TCPI_BAC), ("TCPI_EAC", m.TCPI_EAC)]

/-- C1 (counterexample): the metrics dict returned by
`calculate_evm_metrics` has eleven entries, not twelve as the claim states;
at the claim's own concrete input the returned collection of metrics does
not have size 12. -/
theorem metricEntries_not_twelve :
    (metricEntries (calculate_evm_metrics 100000 50000 40000 45000)).length ≠ 12 := by
  decide

/-- C1 (amended: "eleven" metrics instead of "twelve"): for all non-negative
rational inputs, `calculate_evm_metrics` is total and returns the eleven
metrics computed exactly by the claimed formulas, with 0 whenever a
denominator is exactly 0; and at BAC=100000, PV=50000, EV=40000, AC=45000 it
returns SV=-10000, CV=-5000, SPI=4/5, CPI=8/9, EAC_Typical=112500,
VAC=-12500, TCPI_BAC=12/11. -/
theorem calculate_evm_metrics_spec :
    (∀ bac pv ev ac : ℚ, 0 ≤ bac → 0 ≤ pv → 0 ≤ ev → 0 ≤ ac →
      (metricEntries (calculate_evm_metrics bac pv ev ac)).length = 11 ∧
      (calculate_evm_metrics bac pv ev ac).SV = ev - pv ∧
      (calculate_evm_metrics bac pv ev ac).CV = ev - ac ∧
      (calculate_evm_metrics bac pv ev ac).SPI = (if pv ≠ 0 then ev / pv else 0) ∧
      (calculate_evm_metrics bac pv ev ac).CPI = (if ac ≠ 0 then ev / ac else 0) ∧
      (calculate_evm_metrics bac pv ev ac).EAC_Typical =
        (if (calculate_evm_metrics bac pv ev ac).CPI ≠ 0
         then bac / (calculate_evm_metrics bac pv ev ac).CPI else 0) ∧
      (calculate_evm_metrics bac pv ev ac).EAC_Atypical = ac + (bac - ev) ∧
      (calculate_evm_metrics bac pv ev ac).ETC_Typical =
        (calculate_evm_metrics bac pv ev ac).EAC_Typical - ac ∧
      (calculate_evm_metrics bac pv ev ac).ETC_Atypical =
        (calculate_evm_metrics bac pv ev ac).EAC_Atypical - ac ∧
      (calculate_evm_metrics bac pv ev ac).VAC =
        bac - (calculate_evm_metrics bac pv ev ac).EAC_Typical ∧
      (calculate_evm_metrics bac pv ev ac).TCPI_BAC =
        (if bac - ac ≠ 0 then (bac - ev) / (bac - ac) else 0) ∧
      (calculate_evm_metrics bac pv ev ac).TCPI_EAC =
        (if (calculate_evm_metrics bac pv ev ac).EAC_Typical - ac ≠ 0
         then (bac - ev) / ((calculate_evm_metrics bac pv ev ac).EAC_Typical - ac) else 0)) ∧
    ((calculate_evm_metrics 100000 50000 40000 45000).SV = -10000 ∧
     (calculate_evm_metrics 100000 50000 40000 45000).CV = -5000 ∧
     (calculate_evm_metrics 100000 50000 40000 45000).SPI = 4 / 5 ∧
     (calculate_evm_metrics 100000 50000 40000 45000).CPI = 8 / 9 ∧
     (calculate_evm_metrics 100000 50000 40000 45000).EAC_Typical = 112500 ∧
     (calculate_evm_metrics 100000 50000 40000 45000).VAC = -12500 ∧
     (calculate_evm_metrics 100000 50000 40000 45000).TCPI_BAC = 12 / 11) := by
  constructor
  · intro bac pv ev ac _ _ _ _
    exact ⟨rfl, rfl, rfl, rfl, rfl, rfl, rfl, rfl, rfl, rfl, rfl, rfl⟩
  · norm_num [calculate_evm_metrics]

/-- C1 witness: the universally quantified part of
`calculate_evm_metrics_spec` instantiated at the concrete non-negative
input (100000, 50000, 40000, 45000). -/
theorem calculate_evm_metrics_spec_witness :
    (0 : ℚ) ≤ 100000 ∧
    (metricEntries (calculate_evm_metrics 100000 50000 40000 45000)).length = 11 :=
  ⟨by norm_num,
   (calculate_evm_metrics_spec.1 100000 50000 40000 45000
     (by norm_num) (by norm_num) (by norm_num) (by norm_num)).1⟩

/-- C5: for all non-negative inputs, EAC_Typical · CPI = BAC whenever
CPI ≠ 0, and ETC_Typical = EAC_Typical − AC and
ETC_Atypical = EAC_Atypical − AC hold identically. -/
theorem evm_identities (bac pv ev ac : ℚ)
    (hb : 0 ≤ bac) (hp : 0 ≤ pv) (he : 0 ≤ ev) (ha : 0 ≤ ac) :
    ((calculate_evm_metrics bac pv ev ac).CPI ≠ 0 →
      (calculate_evm_metrics bac pv ev ac).EAC_Typical *
        (calculate_evm_metrics bac pv ev ac).CPI = bac) ∧
    (calculate_evm_metrics bac pv ev ac).ETC_Typical =
      (calculate_evm_metrics bac pv ev ac).EAC_Typical - ac ∧
    (calculate_evm_metrics bac pv ev ac).ETC_Atypical =
      (calculate_evm_metrics bac pv ev ac).EAC_Atypical - ac := by
  refine ⟨?_, rfl, rfl⟩
  intro hcpi
  simp only [calculate_evm_metrics] at hcpi ⊢
  by_cases hac : ac ≠ 0
  · simp only [if_pos hac] at hcpi ⊢
    rw [if_pos hcpi, div_mul_cancel₀ _ hcpi]
  · simp only [if_neg hac] at hcpi
    exact absurd rfl hcpi

/-- C5 witness: `evm_identities` at the concrete input
(100000, 50000, 40000, 45000), where CPI = 8/9 ≠ 0 and the product
EAC_Typical · CPI is exactly 100000. -/
theorem evm_identities_witness :
    (0 : ℚ) ≤ 100000 ∧
    ((calculate_evm_metrics 100000 50000 40000 45000).CPI ≠ 0 →
      (calculate_evm_metrics 100000 50000 40000 45000).EAC_Typical *
        (calculate_evm_metrics 100000 50000 40000 45000).CPI = 100000) ∧
    (calculate_evm_metrics 100000 50000 40000 45000).ETC_Typical =
      (calculate_evm_metrics 100000 50000 40000 45000).EAC_Typical - 45000 ∧
    (calculate_evm_metrics 100000 50000 40000 45000).ETC_Atypical =
      (calculate_evm_metrics 100000 50000 40000 45000).EAC_Atypical - 45000 :=
  ⟨by norm_num,
   evm_identities 100000 50000 40000 45000
     (by norm_num) (by norm_num) (by norm_num) (by norm_num)⟩

/-- Sample offsets of `np.linspace(0, total_duration, 100)`
(src/eva.py line 50): the i-th of the 100 points is `i * D / 99`. -/
def x_days (D : ℤ) : List ℚ :=
  (List.range 100).map fun (i : ℕ) => (i : ℚ) * (D : ℚ) / 99

/-- Cumulative Beta(2,2) fractions (src/eva.py lines 54-55): for each
sample offset x, normalized time `t = x / total_duration` and
`y = 3 t^2 - 2 t^3`. -/
def y_percent (D : ℤ) : List ℚ :=
  (x_days D).map fun x =>
    let t : ℚ := x / (D : ℚ)
    3 * t ^ 2 - 2 * t ^ 3

/-- Planned-value curve `pv_curve = bac * y_percent` (src/eva.py line 56). -/
def pv_curve (bac : ℚ) (D : ℤ) : List ℚ :=
  (y_percent D).map fun y => bac * y

/-- Computational core of `generate_s_curve_plot` (src/eva.py lines 42-56):
the (day-offset, planned-value) samples of the baseline trace.  When the
whole-day duration `finish - start` is not strictly positive the function
returns an empty figure, modelled as the empty sample list; the remaining
plot assembly (markers, layout) is presentation and is excluded. -/
def generate_s_curve (bac : ℚ) (start finish : ℤ) : List (ℚ × ℚ) :=
  let total_duration := finish - start
  if total_duration ≤ 0 then []
  else (x_days total_duration).zip (pv_curve bac total_duration)

/-- The cubic `3 t^2 - 2 t^3` is monotone on `[0, 1]`. -/
theorem beta_cdf_mono {a b : ℚ} (ha : 0 ≤ a) (hab : a ≤ b) (hb : b ≤ 1) :
    3 * a ^ 2 - 2 * a ^ 3 ≤ 3 * b ^ 2 - 2 * b ^ 3 := by
  have hb0 : 0 ≤ b := ha.trans hab
  have ha1 : a ≤ 1 := hab.trans hb
  nlinarith [mul_nonneg (mul_nonneg (sub_nonneg.2 hab) ha) (sub_nonneg.2 ha1),
    mul_nonneg (mul_nonneg (sub_nonneg.2 hab) hb0) (sub_nonneg.2 hb),
    mul_nonneg (mul_nonneg (sub_nonneg.2 hab) ha) (sub_nonneg.2 hb),
    mul_nonneg (mul_nonneg (sub_nonneg.2 hab) hb0) (sub_nonneg.2 ha1)]

theorem t_cancel (D : ℤ) (hD : 0 < D) (i : ℕ) :
    ((i : ℚ) * (D : ℚ) / 99) / (D : ℚ) = (i : ℚ) / 99 := by
  have hD0 : (D : ℚ) ≠ 0 := by
    exact_mod_cast hD.ne'
  rw [div_div, mul_comm (99 : ℚ) (D : ℚ), ← div_div, mul_div_assoc,
    div_self hD0, mul_one]

theorem getD_map_range {α : Type} (f : ℕ → α) (d : α) (i n : ℕ) (h : i < n) :
    (((List.range n).map f).getD i d) = f i := by
  rw [List.getD_eq_getElem?_getD, List.getElem?_map, List.getElem?_range h,
    Option.map_some', Option.getD_some]

theorem y_percent_getD (D : ℤ) (hD : 0 < D) (i : ℕ) (hi : i < 100) :
    (y_percent D).getD i 0 = 3 * ((i : ℚ) / 99) ^ 2 - 2 * ((i : ℚ) / 99) ^ 3 := by
  rw [y_percent, x_days, List.map_map, getD_map_range _ _ _ _ hi]
  show 3 * (((i : ℚ) * (D : ℚ) / 99) / (D : ℚ)) ^ 2 -
      2 * (((i : ℚ) * (D : ℚ) / 99) / (D : ℚ)) ^ 3 = _
  rw [t_cancel D hD i]

theorem generate_s_curve_eq_map (bac : ℚ) (D : ℤ) :
    (x_days D).zip (pv_curve bac D) =
      (List.range 100).map fun (i : ℕ) =>
        ((i : ℚ) * (D : ℚ) / 99,
          bac * (3 * (((i : ℚ) * (D : ℚ) / 99) / (D : ℚ)) ^ 2 -
                 2 * (((i : ℚ) * (D : ℚ) / 99) / (D : ℚ)) ^ 3)) := by
  simp only [x_days, pv_curve, y_percent, List.map_map]
  exact List.zip_map' _ _ _

theorem generate_s_curve_pos (bac : ℚ) (start finish : ℤ)
    (h : ¬(finish - start ≤ 0)) :
    generate_s_curve bac start finish =
      (x_days (finish - start)).zip (pv_curve bac (finish - start)) := by
  rw [generate_s_curve]
  exact if_neg h

/-- C3: for every BAC and whole-day duration `D = PlanFinish - PlanStart > 0`,
the S-curve generator produces exactly 100 samples, the i-th at offset
`i * D / 99` with cumulative value `BAC * (3 t^2 - 2 t^3)` for `t = i / 99`
(equal to the source's `x_i / D`); the cumulative fractions are
non-decreasing in i, start at 0 and end at exactly 1; and when
`PlanFinish ≤ PlanStart` the generator returns an empty curve. -/
theorem generate_s_curve_spec :
    (∀ (bac : ℚ) (start finish : ℤ), start < finish →
      (generate_s_curve bac start finish).length = 100 ∧
      (∀ i : ℕ, i < 100 →
        (generate_s_curve bac start finish).getD i (0, 0) =
          ((i : ℚ) * ((finish - start : ℤ) : ℚ) / 99,
           bac * (3 * ((i : ℚ) / 99) ^ 2 - 2 * ((i : ℚ) / 99) ^ 3))) ∧
      (∀ i j : ℕ, i ≤ j → j < 100 →
        (y_percent (finish - start)).getD i 0 ≤
          (y_percent (finish - start)).getD j 0) ∧
      (y_percent (finish - start)).getD 0 0 = 0 ∧
      (y_percent (finish - start)).getD 99 0 = 1) ∧
    (∀ (bac : ℚ) (start finish : ℤ), finish ≤ start →
      generate_s_curve bac start finish = []) := by
  constructor
  · intro bac start finish h
    have hD : 0 < finish - start := by omega
    have hneg : ¬(finish - start ≤ 0) := by omega
    have hx : (x_days (finish - start)).length = 100 := by
      rw [x_days, List.length_map, List.length_range]
    have hy : (pv_curve bac (finish - start)).length = 100 := by
      rw [pv_curve, y_percent, x_days, List.length_map, List.length_map,
        List.length_map, List.length_range]
    refine ⟨?_, ?_, ?_, ?_, ?_⟩
    · rw [generate_s_curve_pos _ _ _ hneg, List.length_zip, hx, hy, min_self]
    · intro i hi
      rw [generate_s_curve_pos _ _ _ hneg, generate_s_curve_eq_map,
        getD_map_range _ _ _ _ hi, t_cancel _ hD i]
    · intro i j hij hj
      rw [y_percent_getD _ hD i (lt_of_le_of_lt hij hj), y_percent_getD _ hD j hj]
      refine beta_cdf_mono (by positivity) ?_ ?_
      · gcongr
      · rw [div_le_one (by norm_num)]
        exact_mod_cast Nat.lt_succ_iff.mp hj
    · rw [y_percent_getD _ hD 0 (by norm_num)]
      norm_num
    · rw [y_percent_getD _ hD 99 (by norm_num)]
      norm_num
  · intro bac start finish h
    have : finish - start ≤ 0 := by omega
    simp [generate_s_curve, this]

/-- C3 witness: `generate_s_curve_spec` instantiated at BAC = 100000 on the
day range 0..99 (and, for the guard clause, at the inverted range 100..90),
with the inner sample index and monotonicity hypotheses discharged at
i = 5 and (i, j) = (3, 7). -/
theorem generate_s_curve_spec_witness :
    (0 : ℤ) < 99 ∧
    (generate_s_curve 100000 0 99).length = 100 ∧
    (generate_s_curve 100000 0 99).getD 5 (0, 0) =
      (((5 : ℕ) : ℚ) * (((99 : ℤ) - (0 : ℤ) : ℤ) : ℚ) / 99,
       100000 * (3 * (((5 : ℕ) : ℚ) / 99) ^ 2 - 2 * (((5 : ℕ) : ℚ) / 99) ^ 3)) ∧
    (y_percent ((99 : ℤ) - (0 : ℤ))).getD 3 0 ≤ (y_percent ((99 : ℤ) - (0 : ℤ))).getD 7 0 ∧
    (y_percent ((99 : ℤ) - (0 : ℤ))).getD 0 0 = 0 ∧
    (y_percent ((99 : ℤ) - (0 : ℤ))).getD 99 0 = 1 ∧
    generate_s_curve 100000 100 90 = [] := by
  have h1 := generate_s_curve_spec.1 100000 0 99 (by decide)
  have h2 := generate_s_curve_spec.2 100000 100 90 (by decide)
  exact ⟨by decide, h1.1, h1.2.1 5 (by decide), h1.2.2.1 3 7 (by decide) (by decide),
    h1.2.2.2.1, h1.2.2.2.2, h2⟩

/-- Outcome of the EVM app's module-level input dispatch: a blocking error,
a bare warning, or the computed metrics together with the S-curve. -/
inductive RenderOutcome where
  | error : RenderOutcome
  | warning : RenderOutcome
  | computed (metrics : EVMMetrics) (curve : List (ℚ × ℚ)) : RenderOutcome
deriving DecidableEq, Repr

/-- Shallow embedding of the module-level validation chain
(src/eva.py lines 140-147): `if start_date >= finish_date:` show an error;
`elif data_date < start_date or data_date > finish_date:` show a warning;
`else:` compute the metrics and the S-curve.  Because the computation sits
in the `else` branch, the warning branch computes nothing. -/
def render (bac pv ev ac : ℚ) (start finish data_date : ℤ) : RenderOutcome :=
  if finish ≤ start then .error
  else if data_date < start ∨ finish < data_date then .warning
  else .computed (calculate_evm_metrics bac pv ev ac) (generate_s_curve bac start finish)

/-- True exactly when the dispatch reached the metrics-and-curve branch. -/
def proceeds : RenderOutcome → Bool
  | .computed _ _ => true
  | _ => false

/-- C4 (counterexample): at BAC=100000, PV=50000, EV=40000, AC=45000 with
PlanStart = day 0, PlanFinish = day 10 and DataDate = day 20 (outside the
plan range), the application takes the warning branch and the metrics and
curve computation does not proceed, contradicting the claim that
computation still proceeds on such input. -/
theorem render_out_of_range_counterexample :
    render 100000 50000 40000 45000 0 10 20 = RenderOutcome.warning ∧
    proceeds (render 100000 50000 40000 45000 0 10 20) = false :=
  ⟨rfl, rfl⟩

/-- C4 (amended): for every input with PlanFinish > PlanStart and DataDate
outside [PlanStart, PlanFinish], the application shows a warning, and —
because the computation sits in the `else` of the `if/elif/else` chain —
the metrics and curve computation is skipped for that input, not performed. -/
theorem render_out_of_range (bac pv ev ac : ℚ) (start finish data_date : ℤ)
    (hrange : start < finish) (hdd : data_date < start ∨ finish < data_date) :
    render bac pv ev ac start finish data_date = RenderOutcome.warning ∧
    proceeds (render bac pv ev ac start finish data_date) = false := by
  unfold render
  rw [if_neg (by omega), if_pos hdd]
  exact ⟨rfl, rfl⟩

/-- C4 witness: `render_out_of_range` at the concrete input with plan range
0..10 and data date 20. -/
theorem render_out_of_range_witness :
    (0 : ℤ) < 10 ∧ ((20 : ℤ) < 0 ∨ (10 : ℤ) < 20) ∧
    (render 100000 50000 40000 45000 0 10 20 = RenderOutcome.warning ∧
     proceeds (render 100000 50000 40000 45000 0 10 20) = false) :=
  ⟨by decide, by decide,
   render_out_of_range 100000 50000 40000 45000 0 10 20 (by decide) (by decide)⟩

/-- Drop leading whitespace characters. -/
def dropSpace : List Char → List Char
  | [] => []
  | c :: cs => if c.isWhitespace then dropSpace cs else c :: cs

/-- Python's `str.strip()`: remove leading and trailing whitespace. -/
def pyStrip (s : String) : String :=
  String.mk ((dropSpace (dropSpace s.data).reverse).reverse)

/-- Accumulating decimal-digit reader; `none` on any non-digit character. -/
def digitsVal (acc : ℕ) : List Char → Option ℕ
  | [] => some acc
  | c :: cs => if c.isDigit then digitsVal (10 * acc + (c.toNat - 48)) cs else none

/-- Split a character list at its first '.', keeping the remainder. -/
def breakDot : List Char → List Char × Option (List Char)
  | [] => ([], none)
  | c :: cs =>
    if c == '.' then ([], some cs)
    else
      let p := breakDot cs
      (c :: p.1, p.2)

/-- Numeric-string parsing, modelling Python's `float(s)` on plain decimal
literals: optional surrounding whitespace, an optional sign, then digits
with at most one decimal point.  Any other string — e.g. `"abc"` — yields
`none`, where Python raises `ValueError`. -/
def parseFloat? (s : String) : Option ℚ :=
  let cs := (pyStrip s).data
  let sign : ℚ := if cs.head? == some '-' then -1 else 1
  let body := if cs.head? == some '-' || cs.head? == some '+' then cs.tail else cs
  match breakDot body with
  | (ip, none) =>
    if ip.isEmpty then none
    else (digitsVal 0 ip).map fun n => sign * (n : ℚ)
  | (ip, some fp) =>
    if ip.isEmpty && fp.isEmpty then none
    else (digitsVal 0 (ip ++ fp)).map fun n => sign * (n : ℚ) / (10 : ℚ) ^ fp.length

/-- A percentage cell as seen by `analyze_data`: a numeric value, a string,
or a missing value.  `Cell.null` covers both an absent column (where
`row.get(pct_col, 0)` supplies the default `0`) and a `None` entry — both
are falsy on the Python side and reach `float` as `0`.  Floating-point NaN
cells are outside this exact model. -/
inductive Cell where
  | num (q : ℚ) : Cell
  | text (s : String) : Cell
  | null : Cell
deriving DecidableEq, Repr

/-- The coercion `float(row.get(pct_col, 0) or 0)` of src/hospital_app.py
lines 113-114: Python's `x or 0` sends falsy values (missing/None, 0, the
empty string) to `0`, then `float` parses; a non-empty non-numeric string
makes `float` raise `ValueError`, modelled as `Except.error`. -/
def coercePct : Cell → Except String ℚ
  | Cell.num q => Except.ok q
  | Cell.null => Except.ok 0
  | Cell.text s =>
    if s = "" then Except.ok 0
    else
      match parseFloat? s with
      | some q => Except.ok q
      | none => Except.error "could not convert string to float"

instance {ε α : Type} [DecidableEq ε] [DecidableEq α] :
    DecidableEq (Except ε α) := fun x y =>
  match x, y with
  | Except.ok a, Except.ok b =>
    if h : a = b then isTrue (by rw [h])
    else isFalse (by intro hc; cases hc; exact h rfl)
  | Except.error e, Except.error f =>
    if h : e = f then isTrue (by rw [h])
    else isFalse (by intro hc; cases hc; exact h rfl)
  | Except.ok _, Except.error _ => isFalse (by intro hc; cases hc)
  | Except.error _, Except.ok _ => isFalse (by intro hc; cases hc)

/-- True when `coercePct` succeeds on the cell. -/
def goodCell (c : Cell) : Bool :=
  match coercePct c with
  | Except.ok _ => true
  | Except.error _ => false

/-- The value `coercePct` produces on a good cell (0 on an error cell). -/
def cellValD (c : Cell) : ℚ :=
  match coercePct c with
  | Except.ok q => q
  | Except.error _ => 0

/-- One department record as consumed by `analyze_data`: the stringified
department name `str(row.get(dept_col, ''))` (missing column defaulting to
the empty string) and the raw fully-met-percentage cell. -/
structure Rec where
  dept : String
  pct : Cell
deriving DecidableEq, Repr

/-- Does the pattern occur as a leading block of the list? -/
def headMatch : List Char → List Char → Bool
  | [], _ => true
  | _ :: _, [] => false
  | p :: ps, c :: cs => p == c && headMatch ps cs

/-- Substring occurrence over characters. -/
def containsList (pat : List Char) : List Char → Bool
  | [] => pat.isEmpty
  | c :: cs => headMatch pat (c :: cs) || containsList pat cs

/-- Case-sensitive substring test, Python's `pat in s`. -/
def containsSub (s pat : String) : Bool :=
  containsList pat.data s.data

/-- The row filter of src/hospital_app.py line 106:
`if not dept_name or dept_name == '-' or 'Sum' in dept_name: continue`,
applied to the whitespace-trimmed name. -/
def skipName (n : String) : Bool :=
  n == "" || n == "-" || containsSub n "Sum"

/-- One output row of `analyze_data` (src/hospital_app.py lines 117-122). -/
structure VarianceRow where
  dept : String
  before : ℚ
  after : ℚ
  variance : ℚ
deriving DecidableEq, Repr

/-- The per-before-row loop of `analyze_data` (src/hospital_app.py lines
104-122), with the `after` collection fixed: trim the department name, skip
filtered names, find the first after-record with the same trimmed name,
coerce both percentage cells, and emit the variance row.  A `ValueError`
raised by a coercion aborts the whole computation, as in Python. -/
def analyzeGo (after : List Rec) : List Rec → Except String (List VarianceRow)
  | [] => Except.ok []
  | b :: bs =>
    let n := pyStrip b.dept
    if skipName n then analyzeGo after bs
    else
      match after.find? (fun a => pyStrip a.dept == n) with
      | none => analyzeGo after bs
      | some a => do
        let bq ← coercePct b.pct
        let aq ← coercePct a.pct
        let rest ← analyzeGo after bs
        Except.ok (⟨n, bq, aq, aq - bq⟩ :: rest)

/-- Shallow embedding of `analyze_data(before_df, after_df)`
(src/hospital_app.py lines 92-127).  The dual column-name tolerance
(capitalized CSV vs lowercase DB spellings) is an ingestion detail resolved
before this model: a `Rec` already holds the department string and the
percentage cell.  An empty input collection short-circuits to an empty
result (line 93). -/
def analyze_data (before after : List Rec) : Except String (List VarianceRow) :=
  if before.isEmpty || after.isEmpty then Except.ok []
  else analyzeGo after before

/-- A record as claim C2 describes it: a department name and a numeric
fully-met percentage. -/
structure SRec where
  name : String
  pct : ℚ
deriving DecidableEq, Repr

/-- Injection of a claim-level record into the cell-level model. -/
def toRec (r : SRec) : Rec :=
  ⟨r.name, Cell.num r.pct⟩

/-- Specification-side comparison engine, written from claim C2's words
(spec §4.3): for each before record, trim its name; skip it if the trimmed
name is empty, equals "-", or contains the substring "Sum"; match it to the
first after record whose trimmed name is exactly equal; skip it if none
matches; emit one row per matched department with Variance = after − before,
in the original before order; return an empty result when either collection
is empty.  The per-record step is `specRowFn`. -/
def specRowFn (after : List SRec) (br : SRec) : Option VarianceRow :=
  let n := pyStrip br.name
  if skipName n then none
  else
    match after.find? (fun ar => pyStrip ar.name == n) with
    | none => none
    | some ar => some ⟨n, br.pct, ar.pct, ar.pct - br.pct⟩

/-- The whole specification-side engine: empty input short-circuit, then
one `specRowFn` row per before record. -/
def compareDepartments (before after : List SRec) : List VarianceRow :=
  if before.isEmpty || after.isEmpty then []
  else before.filterMap (specRowFn after)

theorem coercePct_good {c : Cell} (h : goodCell c = true) :
    coercePct c = Except.ok (cellValD c) := by
  unfold goodCell at h
  unfold cellValD
  cases hc : coercePct c with
  | ok q => rfl
  | error e => rw [hc] at h; exact absurd h (by simp)

/-- The row produced for one before-record by the loop body of
`analyze_data`, assuming the percentage coercions succeed. -/
def codeRowFn (after : List Rec) (b : Rec) : Option VarianceRow :=
  let n := pyStrip b.dept
  if skipName n then none
  else
    match after.find? (fun a => pyStrip a.dept == n) with
    | none => none
    | some a => some ⟨n, cellValD b.pct, cellValD a.pct,
        cellValD a.pct - cellValD b.pct⟩

theorem analyzeGo_ok (after : List Rec) (before : List Rec)
    (hb : ∀ r ∈ before, goodCell r.pct = true)
    (ha : ∀ r ∈ after, goodCell r.pct = true) :
    analyzeGo after before = Except.ok (before.filterMap (codeRowFn after)) := by
  induction before with
  | nil => rfl
  | cons b bs ih =>
    have hbb : goodCell b.pct = true := hb b (List.mem_cons_self b bs)
    have hbs : ∀ r ∈ bs, goodCell r.pct = true :=
      fun r hr => hb r (List.mem_cons_of_mem b hr)
    rw [analyzeGo, List.filterMap_cons]
    simp only [codeRowFn]
    by_cases hs : skipName (pyStrip b.dept) = true
    · rw [if_pos hs, if_pos hs, ih hbs]
    · rw [if_neg hs, if_neg hs]
      cases hf : after.find? (fun a => pyStrip a.dept == pyStrip b.dept) with
      | none => exact ih hbs
      | some a =>
        have haa : goodCell a.pct = true := ha a (List.mem_of_find?_eq_some hf)
        simp only [hf, coercePct_good hbb, coercePct_good haa, ih hbs, bind, Except.bind]

theorem isEmpty_map {α β : Type} (f : α → β) (l : List α) :
    (l.map f).isEmpty = l.isEmpty := by
  cases l <;> rfl

theorem codeRowFn_toRec (after : List SRec) (s : SRec) :
    codeRowFn (after.map toRec) (toRec s) = specRowFn after s := by
  simp only [codeRowFn, specRowFn, toRec]
  by_cases hs : skipName (pyStrip s.name) = true
  · rw [if_pos hs, if_pos hs]
  · rw [if_neg hs, if_neg hs, List.find?_map]
    have hp : ((fun a : Rec => pyStrip a.dept == pyStrip s.name) ∘ toRec) =
        fun ar : SRec => pyStrip ar.name == pyStrip s.name := rfl
    rw [hp]
    cases hfa : after.find? (fun ar => pyStrip ar.name == pyStrip s.name) with
    | none => rfl
    | some ar => rfl

/-- C2: the comparison engine matches its claimed description — on
collections of (name, numeric percentage) records it returns, without
error, exactly the rows of the claim-level `compareDepartments` (trimmed
names; blank, "-" and "Sum" rows skipped; first exact match after
trimming; one row per matched department with Variance = after − before,
in before order); both-ways empty inputs give an empty result, not an
error; and the claim's concrete case yields exactly
[("Cardiology", 70, 85, 15)]. -/
theorem analyze_data_spec :
    (∀ before after : List SRec,
      analyze_data (before.map toRec) (after.map toRec) =
        Except.ok (compareDepartments before after)) ∧
    (∀ before after : List Rec, before = [] ∨ after = [] →
      analyze_data before after = Except.ok []) ∧
    analyze_data
      [⟨"Cardiology", Cell.num 70⟩, ⟨"-", Cell.num 0⟩, ⟨"Sum Total", Cell.num 100⟩]
      [⟨"Cardiology", Cell.num 85⟩] =
      Except.ok [⟨"Cardiology", 70, 85, 15⟩] := by
  refine ⟨?_, ?_, ?_⟩
  · intro before after
    have hgb : ∀ r ∈ before.map toRec, goodCell r.pct = true := by
      intro r hr
      rcases List.mem_map.mp hr with ⟨s, _, rfl⟩
      rfl
    have hga : ∀ r ∈ after.map toRec, goodCell r.pct = true := by
      intro r hr
      rcases List.mem_map.mp hr with ⟨s, _, rfl⟩
      rfl
    unfold analyze_data compareDepartments
    rw [isEmpty_map, isEmpty_map]
    by_cases hg : (before.isEmpty || after.isEmpty) = true
    · rw [if_pos hg, if_pos hg]
    · rw [if_neg hg, if_neg hg, analyzeGo_ok _ _ hgb hga,
        List.filterMap_map]
      exact congrArg Except.ok
        (congrArg (fun f => List.filterMap f before)
          (funext fun s => codeRowFn_toRec after s))
  · rintro before after (rfl | rfl)
    · rfl
    · simp [analyze_data]
  · have h : analyze_data
        [⟨"Cardiology", Cell.num 70⟩, ⟨"-", Cell.num 0⟩, ⟨"Sum Total", Cell.num 100⟩]
        [⟨"Cardiology", Cell.num 85⟩] =
        Except.ok [⟨"Cardiology", 70, 85, 85 - 70⟩] := rfl
    rw [h]
    norm_num

/-- C2 witness: `analyze_data_spec` instantiated — the universal refinement
part at the claim's concrete collections, and the empty-input part at an
empty before collection. -/
theorem analyze_data_spec_witness :
    analyze_data
      ([⟨"Cardiology", 70⟩, ⟨"-", 0⟩, ⟨"Sum Total", 100⟩].map toRec)
      ([⟨"Cardiology", 85⟩].map toRec) =
      Except.ok (compareDepartments
        [⟨"Cardiology", 70⟩, ⟨"-", 0⟩, ⟨"Sum Total", 100⟩] [⟨"Cardiology", 85⟩]) ∧
    (([] : List Rec) = [] ∨ ([⟨"Cardiology", Cell.num 85⟩] : List Rec) = []) ∧
    analyze_data [] [⟨"Cardiology", Cell.num 85⟩] = Except.ok [] :=
  ⟨analyze_data_spec.1 [⟨"Cardiology", 70⟩, ⟨"-", 0⟩, ⟨"Sum Total", 100⟩]
      [⟨"Cardiology", 85⟩],
   Or.inl rfl,
   analyze_data_spec.2.1 [] [⟨"Cardiology", Cell.num 85⟩] (Or.inl rfl)⟩

/-- C9: when several after records share a before record's trimmed name,
`analyze_data` takes its After percentage from the first matching after
record in after-collection order; everything following it — duplicates
included — is ignored. -/
theorem analyze_uses_first_match (b a : Rec) (pre rest : List Rec) (bq aq : ℚ)
    (hskip : skipName (pyStrip b.dept) = false)
    (hb : b.pct = Cell.num bq) (ha : a.pct = Cell.num aq)
    (hpre : ∀ x ∈ pre, (pyStrip x.dept == pyStrip b.dept) = false)
    (hmatch : pyStrip a.dept = pyStrip b.dept) :
    analyze_data [b] (pre ++ a :: rest) =
      Except.ok [⟨pyStrip b.dept, bq, aq, aq - bq⟩] := by
  have hne : (pre ++ a :: rest).isEmpty = false := by
    cases pre <;> rfl
  have hnoskip : ¬(skipName (pyStrip b.dept) = true) := by
    rw [hskip]
    exact Bool.false_ne_true
  have hfpre : pre.find? (fun x => pyStrip x.dept == pyStrip b.dept) = none :=
    List.find?_eq_none.mpr fun x hx => by rw [hpre x hx]; exact Bool.false_ne_true
  have hfa : (a :: rest).find? (fun x => pyStrip x.dept == pyStrip b.dept) = some a :=
    List.find?_cons_of_pos _ (by rw [hmatch]; exact beq_self_eq_true _)
  unfold analyze_data
  rw [hne]
  simp only [List.isEmpty_cons, Bool.or_false, Bool.false_eq_true, if_false]
  rw [analyzeGo, if_neg hnoskip, List.find?_append, hfpre, Option.none_or, hfa]
  simp only [hb, ha, coercePct, analyzeGo, bind, Except.bind]

/-- C9 witness: `analyze_uses_first_match` with before record
("Cardiology", 70) and after collection
[("Oncology", 50), ("Cardiology", 85), ("Cardiology", 99)]: the reported
After is 85, from the first duplicate. -/
theorem analyze_uses_first_match_witness :
    skipName (pyStrip "Cardiology") = false ∧
    analyze_data [⟨"Cardiology", Cell.num 70⟩]
      ([⟨"Oncology", Cell.num 50⟩] ++
        ⟨"Cardiology", Cell.num 85⟩ :: [⟨"Cardiology", Cell.num 99⟩]) =
      Except.ok [⟨pyStrip "Cardiology", 70, 85, 85 - 70⟩] :=
  ⟨rfl,
   analyze_uses_first_match ⟨"Cardiology", Cell.num 70⟩ ⟨"Cardiology", Cell.num 85⟩
     [⟨"Oncology", Cell.num 50⟩] [⟨"Cardiology", Cell.num 99⟩] 70 85
     rfl rfl rfl
     (by intro x hx; simp only [List.mem_singleton] at hx; rw [hx]; rfl)
     rfl⟩

/-- C6 (counterexample): a matched before record whose percentage cell is
the non-empty non-numeric string "abc" makes the comparison engine raise a
`ValueError` (Python `float("abc")`), contradicting the claim that every
non-numeric value is silently coerced to 0 and no error is ever raised. -/
theorem coercion_raises_counterexample :
    analyze_data [⟨"Cardiology", Cell.text "abc"⟩] [⟨"Cardiology", Cell.num 85⟩] =
      Except.error "could not convert string to float" := by
  rfl

/-- C6 (amended): a missing percentage value (absent column or None) and
the other falsy cells (empty string, the number 0) are silently treated as
0 and never raise, and on collections whose cells all coerce (numbers,
missing values, empty or numeric strings) `analyze_data` never errors; but
a non-empty non-numeric string raises a `ValueError` instead of being
coerced (see the counterexample). -/
theorem coercion_defaults :
    coercePct Cell.null = Except.ok 0 ∧
    coercePct (Cell.text "") = Except.ok 0 ∧
    (∀ q : ℚ, coercePct (Cell.num q) = Except.ok q) ∧
    (∀ before after : List Rec,
      (∀ r ∈ before, goodCell r.pct = true) →
      (∀ r ∈ after, goodCell r.pct = true) →
      ∃ rows, analyze_data before after = Except.ok rows) ∧
    analyze_data [⟨"Cardiology", Cell.null⟩] [⟨"Cardiology", Cell.text ""⟩] =
      Except.ok [⟨"Cardiology", 0, 0, 0⟩] := by
  refine ⟨rfl, rfl, fun q => rfl, ?_, ?_⟩
  case refine_2 =>
    have h : analyze_data [⟨"Cardiology", Cell.null⟩] [⟨"Cardiology", Cell.text ""⟩] =
        Except.ok [⟨"Cardiology", 0, 0, (0 : ℚ) - 0⟩] := rfl
    rw [h]
    norm_num
  case refine_1 =>
  intro before after hb ha
  unfold analyze_data
  by_cases hg : (before.isEmpty || after.isEmpty) = true
  · exact ⟨[], by rw [if_pos hg]⟩
  · exact ⟨before.filterMap (codeRowFn after),
      by rw [if_neg hg, analyzeGo_ok _ _ hb ha]⟩

/-- C6 witness: the never-erroring part of `coercion_defaults` at concrete
collections whose percentage cells are a missing value and an empty
string. -/
theorem coercion_defaults_witness :
    ∃ rows, analyze_data [⟨"Cardiology", Cell.null⟩] [⟨"Cardiology", Cell.text ""⟩] =
      Except.ok rows :=
  coercion_defaults.2.2.2.1 [⟨"Cardiology", Cell.null⟩] [⟨"Cardiology", Cell.text ""⟩]
    (by intro r hr; simp only [List.mem_singleton] at hr; rw [hr]; rfl)
    (by intro r hr; simp only [List.mem_singleton] at hr; rw [hr]; rfl)

/-- Arithmetic mean of a rational column, pandas `Series.mean` on a
non-empty column: sum divided by length. -/
def listMean (xs : List ℚ) : ℚ :=
  xs.sum / xs.length

/-- Descending comparison on Variance: `descVar x y` when x's variance is
at least y's.  Used to model pandas `nlargest` with its default
`keep='first'` tie policy. -/
def descVar (x y : VarianceRow) : Prop :=
  y.variance ≤ x.variance

/-- Ascending comparison on Variance, for pandas `nsmallest`. -/
def ascVar (x y : VarianceRow) : Prop :=
  x.variance ≤ y.variance

instance : DecidableRel descVar :=
  fun x y => inferInstanceAs (Decidable (y.variance ≤ x.variance))

instance : DecidableRel ascVar :=
  fun x y => inferInstanceAs (Decidable (x.variance ≤ y.variance))

instance : IsTotal VarianceRow descVar :=
  ⟨fun a b => le_total b.variance a.variance⟩

instance : IsTotal VarianceRow ascVar :=
  ⟨fun a b => le_total a.variance b.variance⟩

instance : IsTrans VarianceRow descVar :=
  ⟨fun _ _ _ h1 h2 => le_trans h2 h1⟩

instance : IsTrans VarianceRow ascVar :=
  ⟨fun _ _ _ h1 h2 => le_trans h1 h2⟩

/-- pandas `df.nlargest(k, 'Variance')` with default `keep='first'`:
stable descending sort by Variance, then the first k rows. -/
def nlargestVar (k : ℕ) (rows : List VarianceRow) : List VarianceRow :=
  (rows.insertionSort descVar).take k

/-- pandas `df.nsmallest(k, 'Variance')` with default `keep='first'`. -/
def nsmallestVar (k : ℕ) (rows : List VarianceRow) : List VarianceRow :=
  (rows.insertionSort ascVar).take k

/-- The aggregates computed by `generate_summary` before string templating. -/
structure SummaryParts where
  total_before : ℚ
  total_after : ℚ
  total_change : ℚ
  improved : List VarianceRow
  declined : List VarianceRow
  top_improved : List VarianceRow
  top_declined : List VarianceRow
  best_depts : List String
deriving Repr

/-- Computation core of `generate_summary(analysis_df)`
(src/hospital_app.py lines 129-151): the means, improved/declined splits,
top movers and 90%+ departments feeding the narrative string; `none` models
the "No data available for analysis." early return on empty input.  The
string templating itself is presentation. -/
def generate_summary (df : List VarianceRow) : Option SummaryParts :=
  if df.isEmpty then none
  else
    let total_before := listMean (df.map fun r => r.before)
    let total_after := listMean (df.map fun r => r.after)
    let improved := df.filter fun r => decide (0 < r.variance)
    let declined := df.filter fun r => decide (r.variance < 0)
    some {
      total_before := total_before
      total_after := total_after
      total_change := total_after - total_before
      improved := improved
      declined := declined
      top_improved := nlargestVar 3 improved
      top_declined := nsmallestVar 3 declined
      best_depts := (df.filter fun r => decide (90 ≤ r.after)).map fun r => r.dept }

/-- tab1 improved count (src/hospital_app.py line 268). -/
def improved_count (analysis : List VarianceRow) : ℕ :=
  (analysis.filter fun r => decide (0 < r.variance)).length

/-- tab1 declined count (src/hospital_app.py line 269). -/
def declined_count (analysis : List VarianceRow) : ℕ :=
  (analysis.filter fun r => decide (r.variance < 0)).length

/-- tab1 unchanged count (src/hospital_app.py line 270). -/
def unchanged_count (analysis : List VarianceRow) : ℕ :=
  (analysis.filter fun r => decide (r.variance = 0)).length

/-- The overall-performance word of the narrative summary
(src/hospital_app.py line 145): `'improved' if total_change >= 0 else
'declined'`. -/
def overall_phrase (total_change : ℚ) : String :=
  if 0 ≤ total_change then "improved" else "declined"

/-- The change-card label of tab1 (src/hospital_app.py line 299):
`"Improvement" if total_change >= 0 else "Decline"`. -/
def change_label (total_change : ℚ) : String :=
  if 0 ≤ total_change then "Improvement" else "Decline"

theorem sorted_take_of_sorted {r : VarianceRow → VarianceRow → Prop}
    {l : List VarianceRow} (h : List.Sorted r l) (k : ℕ) :
    List.Sorted r (l.take k) :=
  List.Pairwise.sublist (List.take_sublist k l) h

theorem take_drop_dominance {r : VarianceRow → VarianceRow → Prop}
    {l : List VarianceRow} (h : List.Sorted r l) (k : ℕ) :
    ∀ x ∈ l.take k, ∀ y ∈ l.drop k, r x y := by
  have h2 : List.Pairwise r (l.take k ++ l.drop k) := by
    rw [List.take_append_drop]
    exact h
  exact (List.pairwise_append.mp h2).2.2

/-- Lexicographic descending order on (original index, row): strictly
larger Variance first, ties by ascending original index.  This is the
unique order pandas `nlargest` with `keep='first'` realizes. -/
def lexDesc (x y : ℕ × VarianceRow) : Prop :=
  y.2.variance < x.2.variance ∨ (x.2.variance = y.2.variance ∧ x.1 ≤ y.1)

/-- Lexicographic ascending order on (original index, row), for
`nsmallest` with `keep='first'`. -/
def lexAsc (x y : ℕ × VarianceRow) : Prop :=
  x.2.variance < y.2.variance ∨ (x.2.variance = y.2.variance ∧ x.1 ≤ y.1)

instance : DecidableRel lexDesc := fun x y =>
  inferInstanceAs (Decidable
    (y.2.variance < x.2.variance ∨ (x.2.variance = y.2.variance ∧ x.1 ≤ y.1)))

instance : DecidableRel lexAsc := fun x y =>
  inferInstanceAs (Decidable
    (x.2.variance < y.2.variance ∨ (x.2.variance = y.2.variance ∧ x.1 ≤ y.1)))

instance : IsTotal (ℕ × VarianceRow) lexDesc := by
  constructor
  intro a b
  rcases lt_trichotomy a.2.variance b.2.variance with h | h | h
  · exact Or.inr (Or.inl h)
  · rcases le_total a.1 b.1 with hi | hi
    · exact Or.inl (Or.inr ⟨h, hi⟩)
    · exact Or.inr (Or.inr ⟨h.symm, hi⟩)
  · exact Or.inl (Or.inl h)

instance : IsTotal (ℕ × VarianceRow) lexAsc := by
  constructor
  intro a b
  rcases lt_trichotomy a.2.variance b.2.variance with h | h | h
  · exact Or.inl (Or.inl h)
  · rcases le_total a.1 b.1 with hi | hi
    · exact Or.inl (Or.inr ⟨h, hi⟩)
    · exact Or.inr (Or.inr ⟨h.symm, hi⟩)
  · exact Or.inr (Or.inl h)

instance : IsTrans (ℕ × VarianceRow) lexDesc := by
  constructor
  intro a b c hab hbc
  rcases hab with h1 | ⟨e1, i1⟩
  · rcases hbc with h2 | ⟨e2, i2⟩
    · exact Or.inl (lt_trans h2 h1)
    · exact Or.inl (e2 ▸ h1)
  · rcases hbc with h2 | ⟨e2, i2⟩
    · exact Or.inl (e1 ▸ h2)
    · exact Or.inr ⟨e1.trans e2, le_trans i1 i2⟩

instance : IsTrans (ℕ × VarianceRow) lexAsc := by
  constructor
  intro a b c hab hbc
  rcases hab with h1 | ⟨e1, i1⟩
  · rcases hbc with h2 | ⟨e2, i2⟩
    · exact Or.inl (lt_trans h1 h2)
    · exact Or.inl (e2 ▸ h1)
  · rcases hbc with h2 | ⟨e2, i2⟩
    · exact Or.inl (e1 ▸ h2)
    · exact Or.inr ⟨e1.trans e2, le_trans i1 i2⟩

theorem lexDesc_iff {i j : ℕ} {x y : VarianceRow} (hij : i < j) :
    lexDesc (i, x) (j, y) ↔ descVar x y := by
  unfold lexDesc descVar
  constructor
  · rintro (h | ⟨h, _⟩)
    · exact le_of_lt h
    · exact le_of_eq h.symm
  · intro h
    rcases eq_or_lt_of_le h with he | hl
    · exact Or.inr ⟨he.symm, le_of_lt hij⟩
    · exact Or.inl hl

theorem lexAsc_iff {i j : ℕ} {x y : VarianceRow} (hij : i < j) :
    lexAsc (i, x) (j, y) ↔ ascVar x y := by
  unfold lexAsc ascVar
  constructor
  · rintro (h | ⟨h, _⟩)
    · exact le_of_lt h
    · exact le_of_eq h
  · intro h
    rcases eq_or_lt_of_le h with he | hl
    · exact Or.inr ⟨he, le_of_lt hij⟩
    · exact Or.inl hl

theorem fst_ge_of_mem_enumFrom :
    ∀ {l : List VarianceRow} {n : ℕ} {p : ℕ × VarianceRow},
      p ∈ l.enumFrom n → n ≤ p.1 := by
  intro l
  induction l with
  | nil =>
    intro n p hp
    cases hp
  | cons a l ih =>
    intro n p hp
    rw [List.enumFrom_cons] at hp
    rcases List.mem_cons.mp hp with rfl | hp
    · exact le_refl n
    · exact Nat.le_of_succ_le (ih hp)

theorem orderedInsert_map_snd
    (r : VarianceRow → VarianceRow → Prop) [DecidableRel r]
    (rI : ℕ × VarianceRow → ℕ × VarianceRow → Prop) [DecidableRel rI]
    (hc : ∀ (i j : ℕ) (x y : VarianceRow), i < j → (rI (i, x) (j, y) ↔ r x y))
    (k : ℕ) (a : VarianceRow) :
    ∀ (e : List (ℕ × VarianceRow)), (∀ p ∈ e, k < p.1) →
      (e.orderedInsert rI (k, a)).map Prod.snd =
        (e.map Prod.snd).orderedInsert r a := by
  intro e
  induction e with
  | nil => intro _; rfl
  | cons q e ih =>
    intro he
    have hkj : k < q.1 := he q (List.mem_cons_self _ _)
    rw [List.map_cons, List.orderedInsert, List.orderedInsert]
    by_cases h : r a q.2
    · rw [if_pos ((hc k q.1 a q.2 hkj).mpr h), if_pos h, List.map_cons, List.map_cons]
    · rw [if_neg (fun hh => h ((hc k q.1 a q.2 hkj).mp hh)), if_neg h, List.map_cons,
        ih (fun p hp => he p (List.mem_cons_of_mem _ hp))]

theorem insertionSort_enumFrom_snd
    (r : VarianceRow → VarianceRow → Prop) [DecidableRel r]
    (rI : ℕ × VarianceRow → ℕ × VarianceRow → Prop) [DecidableRel rI]
    (hc : ∀ (i j : ℕ) (x y : VarianceRow), i < j → (rI (i, x) (j, y) ↔ r x y)) :
    ∀ (l : List VarianceRow) (k : ℕ),
      ((l.enumFrom k).insertionSort rI).map Prod.snd = l.insertionSort r := by
  intro l
  induction l with
  | nil => intro k; rfl
  | cons a l ih =>
    intro k
    rw [List.enumFrom_cons, List.insertionSort, List.insertionSort, ← ih (k + 1),
      orderedInsert_map_snd r rI hc k a _ ?_]
    intro p hp
    have hp2 : p ∈ l.enumFrom (k + 1) := (List.mem_insertionSort rI).mp hp
    exact Nat.lt_of_succ_le (fst_ge_of_mem_enumFrom hp2)

/-- C7: for every non-empty list of variance rows, `generate_summary`
computes mean Before and mean After as arithmetic means over all rows; the
improved/declined/unchanged counts are the rows with Variance > 0, < 0 and
exactly 0; top-3 improved is the 3 largest-Variance improved rows with ties
broken by original order (sorted by Variance, length min 3, every selected
row dominating every unselected one, and — pinning the tie policy — equal to
the first three of the index-annotated improved rows arranged in the unique
`lexDesc` order: Variance descending, ties by ascending original position);
top-3 declined is symmetric with the most negative Variances first; and the
high performers are exactly the rows with After ≥ 90. -/
theorem generate_summary_spec (df : List VarianceRow) (hne : df ≠ []) :
    ∃ s, generate_summary df = some s ∧
      s.total_before = (df.map fun r => r.before).sum / df.length ∧
      s.total_after = (df.map fun r => r.after).sum / df.length ∧
      improved_count df = (df.filter fun r => decide (0 < r.variance)).length ∧
      declined_count df = (df.filter fun r => decide (r.variance < 0)).length ∧
      unchanged_count df = (df.filter fun r => decide (r.variance = 0)).length ∧
      s.improved = df.filter (fun r => decide (0 < r.variance)) ∧
      s.declined = df.filter (fun r => decide (r.variance < 0)) ∧
      s.top_improved.length = min 3 s.improved.length ∧
      s.top_declined.length = min 3 s.declined.length ∧
      List.Sorted descVar s.top_improved ∧
      List.Sorted ascVar s.top_declined ∧
      (∃ others, s.improved.Perm (s.top_improved ++ others) ∧
        ∀ x ∈ s.top_improved, ∀ y ∈ others, y.variance ≤ x.variance) ∧
      (∃ others, s.declined.Perm (s.top_declined ++ others) ∧
        ∀ x ∈ s.top_declined, ∀ y ∈ others, x.variance ≤ y.variance) ∧
      (∃ se, s.improved.enum.Perm se ∧ List.Sorted lexDesc se ∧
        s.top_improved = (se.take 3).map Prod.snd) ∧
      (∃ se, s.declined.enum.Perm se ∧ List.Sorted lexAsc se ∧
        s.top_declined = (se.take 3).map Prod.snd) ∧
      s.best_depts = (df.filter fun r => decide (90 ≤ r.after)).map fun r => r.dept := by
  have hie : ¬(df.isEmpty = true) := by
    cases df with
    | nil => exact absurd rfl hne
    | cons a l => simp
  refine ⟨_, by rw [generate_summary, if_neg hie], ?_, ?_, rfl, rfl, rfl, rfl, rfl,
    ?_, ?_, ?_, ?_, ?_, ?_, ?_, ?_, rfl⟩
  · show listMean (df.map fun r => r.before) = _
    rw [listMean, List.length_map]
  · show listMean (df.map fun r => r.after) = _
    rw [listMean, List.length_map]
  · show (nlargestVar 3 (df.filter fun r => decide (0 < r.variance))).length = _
    rw [nlargestVar, List.length_take, List.length_insertionSort]
  · show (nsmallestVar 3 (df.filter fun r => decide (r.variance < 0))).length = _
    rw [nsmallestVar, List.length_take, List.length_insertionSort]
  · exact sorted_take_of_sorted (List.sorted_insertionSort descVar _) 3
  · exact sorted_take_of_sorted (List.sorted_insertionSort ascVar _) 3
  · refine ⟨((df.filter fun r => decide (0 < r.variance)).insertionSort descVar).drop 3,
      ?_, ?_⟩
    · show (df.filter fun r => decide (0 < r.variance)).Perm
        (nlargestVar 3 (df.filter fun r => decide (0 < r.variance)) ++
          ((df.filter fun r => decide (0 < r.variance)).insertionSort descVar).drop 3)
      rw [nlargestVar, List.take_append_drop]
      exact (List.perm_insertionSort descVar _).symm
    · exact take_drop_dominance (List.sorted_insertionSort descVar _) 3
  · refine ⟨((df.filter fun r => decide (r.variance < 0)).insertionSort ascVar).drop 3,
      ?_, ?_⟩
    · show (df.filter fun r => decide (r.variance < 0)).Perm
        (nsmallestVar 3 (df.filter fun r => decide (r.variance < 0)) ++
          ((df.filter fun r => decide (r.variance < 0)).insertionSort ascVar).drop 3)
      rw [nsmallestVar, List.take_append_drop]
      exact (List.perm_insertionSort ascVar _).symm
    · exact take_drop_dominance (List.sorted_insertionSort ascVar _) 3
  · show ∃ se, ((df.filter fun r => decide (0 < r.variance)).enumFrom 0).Perm se ∧
        List.Sorted lexDesc se ∧
        nlargestVar 3 (df.filter fun r => decide (0 < r.variance)) =
          (se.take 3).map Prod.snd
    refine ⟨_, (List.perm_insertionSort lexDesc _).symm,
      List.sorted_insertionSort lexDesc _, ?_⟩
    rw [List.map_take,
      insertionSort_enumFrom_snd descVar lexDesc (fun i j x y h => lexDesc_iff h) _ 0,
      nlargestVar]
  · show ∃ se, ((df.filter fun r => decide (r.variance < 0)).enumFrom 0).Perm se ∧
        List.Sorted lexAsc se ∧
        nsmallestVar 3 (df.filter fun r => decide (r.variance < 0)) =
          (se.take 3).map Prod.snd
    refine ⟨_, (List.perm_insertionSort lexAsc _).symm,
      List.sorted_insertionSort lexAsc _, ?_⟩
    rw [List.map_take,
      insertionSort_enumFrom_snd ascVar lexAsc (fun i j x y h => lexAsc_iff h) _ 0,
      nsmallestVar]

/-- Single-row collection used to instantiate the summary theorems. -/
def wRows : List VarianceRow :=
  [⟨"A", 1, 2, 1⟩]

/-- C7 witness: `generate_summary_spec` at the one-row collection
[("A", 1, 2, 1)]. -/
theorem generate_summary_spec_witness :
    wRows ≠ [] ∧
    (∃ s, generate_summary wRows = some s ∧
      s.total_before = (wRows.map fun r => r.before).sum / wRows.length ∧
      s.total_after = (wRows.map fun r => r.after).sum / wRows.length ∧
      improved_count wRows = (wRows.filter fun r => decide (0 < r.variance)).length ∧
      declined_count wRows = (wRows.filter fun r => decide (r.variance < 0)).length ∧
      unchanged_count wRows = (wRows.filter fun r => decide (r.variance = 0)).length ∧
      s.improved = wRows.filter (fun r => decide (0 < r.variance)) ∧
      s.declined = wRows.filter (fun r => decide (r.variance < 0)) ∧
      s.top_improved.length = min 3 s.improved.length ∧
      s.top_declined.length = min 3 s.declined.length ∧
      List.Sorted descVar s.top_improved ∧
      List.Sorted ascVar s.top_declined ∧
      (∃ others, s.improved.Perm (s.top_improved ++ others) ∧
        ∀ x ∈ s.top_improved, ∀ y ∈ others, y.variance ≤ x.variance) ∧
      (∃ others, s.declined.Perm (s.top_declined ++ others) ∧
        ∀ x ∈ s.top_declined, ∀ y ∈ others, x.variance ≤ y.variance) ∧
      (∃ se, s.improved.enum.Perm se ∧ List.Sorted lexDesc se ∧
        s.top_improved = (se.take 3).map Prod.snd) ∧
      (∃ se, s.declined.enum.Perm se ∧ List.Sorted lexAsc se ∧
        s.top_declined = (se.take 3).map Prod.snd) ∧
      s.best_depts = (wRows.filter fun r => decide (90 ≤ r.after)).map fun r => r.dept) :=
  ⟨by decide, generate_summary_spec wRows (by decide)⟩

/-- C10: when the mean-After minus mean-Before change is exactly 0, the
narrative classifies overall compliance as having 'improved' and the change
card as an 'Improvement', because both conditionals test
`total_change >= 0`. -/
theorem zero_change_classified_improved (df : List VarianceRow)
    (s : SummaryParts) (h : generate_summary df = some s)
    (hz : s.total_change = 0) :
    overall_phrase s.total_change = "improved" ∧
    change_label s.total_change = "Improvement" := by
  rw [hz]
  exact ⟨rfl, rfl⟩

/-- The summary record produced on the zero-change collection
[("A", 50, 50, 0)]. -/
def sampleSummary : SummaryParts :=
  { total_before := listMean [50]
    total_after := listMean [50]
    total_change := listMean [50] - listMean [50]
    improved := []
    declined := []
    top_improved := []
    top_declined := []
    best_depts := [] }

/-- C10 witness: `zero_change_classified_improved` on the zero-change
collection [("A", 50, 50, 0)]. -/
theorem zero_change_classified_improved_witness :
    generate_summary [⟨"A", 50, 50, 0⟩] = some sampleSummary ∧
    sampleSummary.total_change = 0 ∧
    (overall_phrase sampleSummary.total_change = "improved" ∧
     change_label sampleSummary.total_change = "Improvement") :=
  ⟨rfl, sub_self _,
   zero_change_classified_improved [⟨"A", 50, 50, 0⟩] sampleSummary rfl (sub_self _)⟩

/-- One department record of an uploaded per-year table, with the counts
and percentages of the `case_data` schema (src/hospital_app.py lines
22-36); the dual-spelling `row.get` extraction and `int`/`float` coercions
of lines 62-70 are ingestion, resolved before this model. -/
structure DeptRow where
  department : String
  fully_met : ℤ
  fully_met_pct : ℚ
  partially_met : ℤ
  partially_met_pct : ℚ
  not_met : ℤ
  not_met_pct : ℚ
  not_applicable : ℤ
deriving DecidableEq, Repr

/-- One stored row of the `case_data` table. -/
structure CaseDataRow where
  case_id : String
  department : String
  fully_met : ℤ
  fully_met_pct : ℚ
  partially_met : ℤ
  partially_met_pct : ℚ
  not_met : ℤ
  not_met_pct : ℚ
  not_applicable : ℤ
  year : ℤ
deriving DecidableEq, Repr

/-- The INSERT of src/hospital_app.py lines 58-72, one uploaded row. -/
def toCaseDataRow (case_id : String) (year : ℤ) (r : DeptRow) : CaseDataRow :=
  { case_id := case_id, department := r.department,
    fully_met := r.fully_met, fully_met_pct := r.fully_met_pct,
    partially_met := r.partially_met, partially_met_pct := r.partially_met_pct,
    not_met := r.not_met, not_met_pct := r.not_met_pct,
    not_applicable := r.not_applicable, year := year }

/-- The `WHERE case_id = ? AND year = ?` predicate. -/
def rowKeyMatches (case_id : String) (year : ℤ) (r : CaseDataRow) : Bool :=
  r.case_id == case_id && r.year == year

/-- Violation test for the `(case_id, department, year)` PRIMARY KEY of
`case_data` (src/hospital_app.py line 34). -/
def pkConflict (db : List CaseDataRow) (r : CaseDataRow) : Bool :=
  db.any fun x =>
    x.case_id == r.case_id && x.department == r.department && x.year == r.year

/-- The INSERT loop of `save_case_data`: append each row in order, failing
on a primary-key conflict as DuckDB would. -/
def insertRows (db : List CaseDataRow) :
    List CaseDataRow → Except String (List CaseDataRow)
  | [] => Except.ok db
  | r :: rs =>
    if pkConflict db r then Except.error "Constraint Error: duplicate primary key"
    else insertRows (db ++ [r]) rs

/-- Shallow embedding of `save_case_data(case_id, df, year)`
(src/hospital_app.py lines 53-73) over an explicit table state: DELETE all
rows with the given (case_id, year), then INSERT the uploaded rows in
order. -/
def save_case_data (case_id : String) (df : List DeptRow) (year : ℤ)
    (db : List CaseDataRow) : Except String (List CaseDataRow) :=
  insertRows (db.filter fun r => !(rowKeyMatches case_id year r))
    (df.map (toCaseDataRow case_id year))

/-- The SELECT column list of `get_case_data` (src/hospital_app.py lines
77-82): everything but the key. -/
def projRow (r : CaseDataRow) : DeptRow :=
  { department := r.department,
    fully_met := r.fully_met, fully_met_pct := r.fully_met_pct,
    partially_met := r.partially_met, partially_met_pct := r.partially_met_pct,
    not_met := r.not_met, not_met_pct := r.not_met_pct,
    not_applicable := r.not_applicable }

/-- Shallow embedding of `get_case_data(case_id, year)`
(src/hospital_app.py lines 75-84): the stored rows with that key, in table
order, projected to the department columns. -/
def get_case_data (case_id : String) (year : ℤ)
    (db : List CaseDataRow) : List DeptRow :=
  (db.filter fun r => rowKeyMatches case_id year r).map projRow

theorem insertRows_ok {out : List CaseDataRow} :
    ∀ {db : List CaseDataRow} {rs : List CaseDataRow},
      insertRows db rs = Except.ok out → out = db ++ rs := by
  intro db rs
  induction rs generalizing db with
  | nil =>
    intro h
    rw [insertRows] at h
    cases h
    simp
  | cons r rs ih =>
    intro h
    rw [insertRows] at h
    by_cases hc : pkConflict db r = true
    · rw [if_pos hc] at h
      cases h
    · rw [if_neg hc] at h
      rw [ih h]
      simp

/-- C8: saving department data for a (case_id, year) key replaces all prior
rows for that key — after two consecutive successful saves for the same
key, querying that key returns exactly the rows of the second save and none
of the first. -/
theorem save_replaces (case_id : String) (year : ℤ) (df1 df2 : List DeptRow)
    (db db1 db2 : List CaseDataRow)
    (h1 : save_case_data case_id df1 year db = Except.ok db1)
    (h2 : save_case_data case_id df2 year db1 = Except.ok db2) :
    get_case_data case_id year db2 = df2 := by
  have e1 : db1 = db.filter (fun r => !(rowKeyMatches case_id year r)) ++
      df1.map (toCaseDataRow case_id year) := insertRows_ok h1
  have e2 : db2 = db1.filter (fun r => !(rowKeyMatches case_id year r)) ++
      df2.map (toCaseDataRow case_id year) := insertRows_ok h2
  have hkey : ∀ r ∈ df2.map (toCaseDataRow case_id year),
      rowKeyMatches case_id year r = true := by
    intro r hr
    rcases List.mem_map.mp hr with ⟨s, _, rfl⟩
    simp [rowKeyMatches, toCaseDataRow]
  have hkey1 : ∀ r ∈ df1.map (toCaseDataRow case_id year),
      rowKeyMatches case_id year r = true := by
    intro r hr
    rcases List.mem_map.mp hr with ⟨s, _, rfl⟩
    simp [rowKeyMatches, toCaseDataRow]
  have hdf1 : (df1.map (toCaseDataRow case_id year)).filter
      (fun r => !(rowKeyMatches case_id year r)) = [] :=
    List.filter_eq_nil_iff.mpr (by
      intro a ha
      rw [hkey1 a ha]
      simp)
  have hdf2 : (df2.map (toCaseDataRow case_id year)).filter
      (fun r => rowKeyMatches case_id year r) = df2.map (toCaseDataRow case_id year) :=
    List.filter_eq_self.mpr hkey
  simp only [get_case_data, e2, e1, List.filter_append, List.filter_filter,
    hdf1, hdf2, Bool.and_self, Bool.and_not_self, List.filter_false,
    List.append_nil, List.nil_append, List.map_map]
  have hid : projRow ∘ toCaseDataRow case_id year = id := funext fun r => rfl
  rw [hid, List.map_id]

/-- First sample upload row for the C8 witness. -/
def rowA : DeptRow :=
  ⟨"CathLab", 10, 70, 3, 20, 1, 10, 0⟩

/-- Second sample upload row for the C8 witness. -/
def rowB : DeptRow :=
  ⟨"ICU", 8, 80, 2, 15, 1, 5, 0⟩

/-- C8 witness: two consecutive saves for ("C1", 2024) starting from an
empty table; the query afterwards returns exactly the second upload. -/
theorem save_replaces_witness :
    save_case_data "C1" [rowA] 2024 [] =
      Except.ok [toCaseDataRow "C1" 2024 rowA] ∧
    save_case_data "C1" [rowB] 2024 [toCaseDataRow "C1" 2024 rowA] =
      Except.ok [toCaseDataRow "C1" 2024 rowB] ∧
    get_case_data "C1" 2024 [toCaseDataRow "C1" 2024 rowB] = [rowB] :=
  ⟨rfl, rfl,
   save_replaces "C1" 2024 [rowA] [rowB] []
     [toCaseDataRow "C1" 2024 rowA] [toCaseDataRow "C1" 2024 rowB] rfl rfl⟩
